import Mathlib

/-!
# Shallow embedding of the file-sharing core

This development embeds the storage/sharing core of the repository
(`src/services/userService.ts` and `src/services/fileService.ts`) into Lean and
proves the specified properties about it.

Modelling conventions:
* Firestore collections are association lists `List (String × α)` keyed by document
  id; `getDoc` is `getEntry`, `updateDoc` on an existing document is `setEntry`
  (partial updates are expressed with record-update syntax on the fetched record,
  which matches Firestore's merge semantics field by field), `deleteDoc` is
  `eraseEntry`, and `addDoc` appends a pair with a caller-supplied fresh id.
* JS numbers that the code uses integrally (byte sizes, epoch-millisecond
  timestamps, hour counts) are `Int`.
* A TS optional field `x?: T` is `Option T` (`none` = field absent/undefined).
  `deleteField()` stores `none`.  Where the code distinguishes `undefined` from
  `null` from a number (the `expiresIn` option of `generateShareableLink`), the
  three-way type `NumOpt` is used.
* The external blob store (Cloudinary) is a list of stored public ids in the
  state; a transfer outcome is an explicit argument (`Option CloudinaryResponse`,
  `none` meaning the upload request failed).
* The external SHA-256 primitive (`crypto.subtle.digest` inside `hashPassword`)
  is a parameter `hash : String → String`; every operation that hashes takes it
  as its first argument.
* A TS function that can `throw` returns `Except FsError α`; stateful operations
  return the post-state as well, so an error value is paired with the state as
  mutated up to the throw point.
* Wall-clock time (`new Date()`) is an explicit `now : Int` argument.
-/

namespace FileShare

/-- Error taxonomy: one constructor per distinct `throw new Error(...)` site the
claims touch. -/
inductive FsError : Type
  | userProfileNotFound
  | storageQuotaExceeded
  | fileNotFound
  | unauthorized
  | uploadFailed
  deriving Repr, DecidableEq

/-- A JS `number | null | undefined` optional option field, as read through
`options?.expiresIn`: the code distinguishes truthy numbers, `null`, and
absent/undefined. -/
inductive NumOpt : Type
  | undef
  | null
  | val (n : Int)
  deriving Repr, DecidableEq

/-- `UserProfile` from `src/services/userService.ts` (the fields the core logic
reads; presentation-only fields such as `displayName` and the profile timestamps
are omitted, the code never branches on them). -/
structure UserProfile : Type where
  uid : String
  email : String
  totalStorage : Int
  usedStorage : Int
  files : List String
  deriving Repr, DecidableEq

/-- `FileData` from `src/services/fileService.ts` (the fields the core logic
reads; presentation-only fields such as `url`, `width`, `format` are omitted,
the code never branches on them).  `password` stores the hashed password. -/
structure FileData : Type where
  userId : String
  name : String
  size : Int
  publicId : String
  isPublic : Bool
  uploadedAt : Int
  expiresAt : Option Int
  sharedWith : List String
  isPasswordProtected : Bool := false
  password : Option String := none
  deriving Repr, DecidableEq

/-- The document store (`files` and `users` collections) plus the external blob
store contents. -/
structure DB : Type where
  files : List (String × FileData)
  users : List (String × UserProfile)
  blobs : List String
  deriving Repr, DecidableEq

/-- `getDoc` on an association-list collection. -/
def getEntry {α : Type} : List (String × α) → String → Option α
  | [], _ => none
  | (k, v) :: rest, key => if k = key then some v else getEntry rest key

/-- `updateDoc` on an existing document: replace the first binding of `key`. -/
def setEntry {α : Type} : List (String × α) → String → α → List (String × α)
  | [], _, _ => []
  | (k, v) :: rest, key, w => if k = key then (k, w) :: rest else (k, v) :: setEntry rest key w

/-- `deleteDoc`: remove the first binding of `key`. -/
def eraseEntry {α : Type} : List (String × α) → String → List (String × α)
  | [], _ => []
  | (k, v) :: rest, key => if k = key then rest else (k, v) :: eraseEntry rest key

/-- `updateUserStorage` (userService.ts lines 55–74): fetch the profile, add or
subtract `fileSize`, reject when the new usage exceeds `totalStorage`, write the
new usage back.  Note the code has no floor at zero on subtraction. -/
def updateUserStorage (users : List (String × UserProfile)) (uid : String)
    (fileSize : Int) (isAddition : Bool := true) :
    Except FsError (List (String × UserProfile)) :=
  match getEntry users uid with
  | none => .error .userProfileNotFound
  | some p =>
    let newUsedStorage := if isAddition then p.usedStorage + fileSize
                          else p.usedStorage - fileSize
    if p.totalStorage < newUsedStorage then .error .storageQuotaExceeded
    else .ok (setEntry users uid { p with usedStorage := newUsedStorage })

/-- `Date.setHours(getHours() + h)`: adding `h` hours in epoch milliseconds. -/
def addHours (now : Int) (h : Int) : Int := now + h * 3600000

/-- The `file: File` argument of `uploadFile`. -/
structure UploadedFile : Type where
  name : String
  type : String
  size : Int
  deriving Repr, DecidableEq

/-- The fields of a successful Cloudinary upload response that the code stores. -/
structure CloudinaryResponse : Type where
  publicId : String
  url : String
  secureUrl : String
  deriving Repr, DecidableEq

/-- The `options` argument of `uploadFile`. -/
structure UploadOptions : Type where
  expiresIn : Option Int := none
  password : Option String := none
  deriving Repr, DecidableEq

/-- `uploadFile` (fileService.ts lines 90–169): quota pre-check against the
user profile, then the Cloudinary transfer (`blobResp`, an external outcome:
`none` = transfer failed), then building the record (password protection only
for a truthy, i.e. non-empty, password; expiration only for a truthy
`expiresIn`), then `addDoc`, then `updateUserStorage`. -/
def uploadFile (hash : String → String) (db : DB) (file : UploadedFile)
    (userId : String) (opts : UploadOptions)
    (blobResp : Option CloudinaryResponse) (now : Int) (newId : String) :
    Except FsError FileData × DB :=
  match getEntry db.users userId with
  | none => (.error .userProfileNotFound, db)
  | some prof =>
    if prof.totalStorage < prof.usedStorage + file.size then
      (.error .storageQuotaExceeded, db)
    else
      match blobResp with
      | none => (.error .uploadFailed, db)
      | some resp =>
        let db1 : DB := { db with blobs := db.blobs ++ [resp.publicId] }
        let base : FileData :=
          { userId := userId, name := file.name, size := file.size,
            publicId := resp.publicId, isPublic := false, uploadedAt := now,
            expiresAt := none, sharedWith := [] }
        let fd1 := match opts.password with
          | some p => if p ≠ "" then
              { base with isPasswordProtected := true, password := some (hash p) }
            else base
          | none => base
        let fd2 := match opts.expiresIn with
          | some n => if n ≠ 0 then { fd1 with expiresAt := some (addHours now n) } else fd1
          | none => fd1
        let db2 : DB := { db1 with files := db1.files ++ [(newId, fd2)] }
        match updateUserStorage db2.users userId file.size true with
        | .error e => (.error e, db2)
        | .ok users2 => (.ok fd2, { db2 with users := users2 })

/-- `deleteFile` (fileService.ts lines 278–344): ownership check, best-effort
blob destroy (its failure is only logged, so the model removes the blob ref),
removal of the file id from the owner's `files` array, quota release via
`updateUserStorage`, and finally `deleteDoc` on the record. -/
def deleteFile (db : DB) (fileId : String) (userId : String) :
    Except FsError Unit × DB :=
  match getEntry db.files fileId with
  | none => (.error .fileNotFound, db)
  | some fd =>
    if fd.userId ≠ userId then (.error .unauthorized, db)
    else
      let db1 : DB := { db with blobs := db.blobs.erase fd.publicId }
      match getEntry db1.users userId with
      | none => (.error .userProfileNotFound, db1)
      | some prof =>
        let prof1 := { prof with files := prof.files.filter (fun s => s ≠ fileId) }
        let db2 : DB := { db1 with users := setEntry db1.users userId prof1 }
        match updateUserStorage db2.users userId fd.size false with
        | .error e => (.error e, db2)
        | .ok users2 =>
          (.ok (), { db2 with users := users2, files := eraseEntry db2.files fileId })

/-- The comparator of `getUserFiles`' final sort: newest (largest `uploadedAt`)
first. -/
def uploadOrder (a b : String × FileData) : Prop :=
  b.2.uploadedAt ≤ a.2.uploadedAt

instance : DecidableRel uploadOrder := fun a b =>
  inferInstanceAs (Decidable (b.2.uploadedAt ≤ a.2.uploadedAt))

instance : IsTotal (String × FileData) uploadOrder :=
  ⟨fun a b => Int.le_total b.2.uploadedAt a.2.uploadedAt⟩

instance : IsTrans (String × FileData) uploadOrder :=
  ⟨fun _ _ _ h1 h2 => le_trans h2 h1⟩

/-- `getUserFiles` (fileService.ts lines 172–238): all records with the given
`userId`, dropping every record whose `expiresAt` is present and not in the
future (`!file.expiresAt || file.expiresAt > now`), sorted newest first. -/
def getUserFiles (db : DB) (userId : String) (now : Int) :
    List (String × FileData) :=
  let files := db.files.filter fun e => e.2.userId = userId
  let validFiles := files.filter fun e =>
    match e.2.expiresAt with
    | none => true
    | some t => decide (now < t)
  List.insertionSort uploadOrder validFiles

/-- `generateShareableLink` (fileService.ts lines 386–439): ownership check,
then one merged `updateDoc` setting `isPublic`, the expiration (truthy
`expiresIn` sets `now + N` hours, `null` deletes the field, undefined leaves it
untouched), and — for a truthy password — the protection flag and the new
hash. -/
def generateShareableLink (hash : String → String) (db : DB) (fileId : String)
    (userId : String) (expiresIn : NumOpt) (password : Option String)
    (now : Int) : Except FsError String × DB :=
  match getEntry db.files fileId with
  | none => (.error .fileNotFound, db)
  | some fd =>
    if fd.userId ≠ userId then (.error .unauthorized, db)
    else
      let fd1 := { fd with isPublic := true }
      let fd2 := match expiresIn with
        | .val n => if n ≠ 0 then { fd1 with expiresAt := some (addHours now n) } else fd1
        | .null => { fd1 with expiresAt := none }
        | .undef => fd1
      let fd3 := match password with
        | some p => if p ≠ "" then
            { fd2 with isPasswordProtected := true, password := some (hash p) }
          else fd2
        | none => fd2
      (.ok (String.append "/files/" fileId),
       { db with files := setEntry db.files fileId fd3 })

/-- The `try` body of `verifyFilePassword` (fileService.ts lines 442–460):
missing record throws, unprotected file returns `true`, otherwise the supplied
password's hash is compared with the stored one (`===`, so an absent stored
hash compares unequal). -/
def verifyFilePasswordTry (hash : String → String) (db : DB) (fileId : String)
    (password : String) : Except FsError Bool :=
  match getEntry db.files fileId with
  | none => .error .fileNotFound
  | some fd =>
    if fd.isPasswordProtected = false then .ok true
    else .ok (fd.password = some (hash password))

/-- `verifyFilePassword` (fileService.ts lines 442–465): the `catch` converts
any thrown error into `false`. -/
def verifyFilePassword (hash : String → String) (db : DB) (fileId : String)
    (password : String) : Bool :=
  match verifyFilePasswordTry hash db fileId password with
  | .error _ => false
  | .ok b => b

/-- `getPublicFile` (fileService.ts lines 492–539): `none` when the record is
missing, not public, or has an expiration strictly in the past
(`now > expirationDate`); otherwise the record. -/
def getPublicFile (db : DB) (fileId : String) (now : Int) : Option FileData :=
  match getEntry db.files fileId with
  | none => none
  | some fd =>
    if fd.isPublic = false then none
    else
      match fd.expiresAt with
      | some t => if t < now then none else some fd
      | none => some fd

/-- The Firestore query predicate of `cleanupExpiredFiles`:
`expiresAt < now` (a document without the field never matches a range query on
it) and `isPublic == true`. -/
def isExpiredPublic (now : Int) (fd : FileData) : Bool :=
  (match fd.expiresAt with
   | some t => decide (t < now)
   | none => false) && fd.isPublic

/-- The per-record body of the sweep: call `deleteFile` with the record's own `userId`
when that id is truthy, swallowing any error (the `catch` only logs). -/
def sweepStep (acc : DB) (e : String × FileData) : DB :=
  if e.2.userId ≠ "" then (deleteFile acc e.1 e.2.userId).2 else acc

/-- `cleanupExpiredFiles` (fileService.ts lines 542–577): snapshot the matching
records, run `sweepStep` for each, and return the snapshot size. -/
def cleanupExpiredFiles (db : DB) (now : Int) : Nat × DB :=
  let expired := db.files.filter fun e => isExpiredPublic now e.2
  (expired.length, expired.foldl sweepStep db)

/-! ## Association-list lemmas -/

theorem getEntry_setEntry_self {α : Type} (l : List (String × α)) (k : String) (w v : α)
    (h : getEntry l k = some w) : getEntry (setEntry l k v) k = some v := by
  induction l with
  | nil => simp [getEntry] at h
  | cons e rest ih =>
    obtain ⟨k0, v0⟩ := e
    by_cases hk : k0 = k
    · simp [getEntry, setEntry, hk]
    · simp only [getEntry, setEntry, hk, if_false] at h ⊢
      exact ih h

theorem getEntry_setEntry_ne {α : Type} (l : List (String × α)) (k k' : String) (v : α)
    (hne : k' ≠ k) : getEntry (setEntry l k v) k' = getEntry l k' := by
  induction l with
  | nil => rfl
  | cons e rest ih =>
    obtain ⟨k0, v0⟩ := e
    by_cases hk : k0 = k
    · subst hk
      have hk0 : ¬ k0 = k' := fun h => hne h.symm
      simp [getEntry, setEntry, hk0]
    · simp only [setEntry, hk, if_false]
      by_cases hk' : k0 = k'
      · simp [getEntry, hk']
      · simp only [getEntry, hk', if_false]
        exact ih

theorem getEntry_eraseEntry_ne {α : Type} (l : List (String × α)) (k k' : String)
    (hne : k' ≠ k) : getEntry (eraseEntry l k) k' = getEntry l k' := by
  induction l with
  | nil => rfl
  | cons e rest ih =>
    obtain ⟨k0, v0⟩ := e
    by_cases hk : k0 = k
    · subst hk
      have hk0 : ¬ k0 = k' := fun h => hne h.symm
      simp [getEntry, eraseEntry, hk0]
    · simp only [eraseEntry, hk, if_false]
      by_cases hk' : k0 = k'
      · simp [getEntry, hk']
      · simp only [getEntry, hk', if_false]
        exact ih

theorem getEntry_eq_some_of_mem {α : Type} (l : List (String × α)) (k : String) (v : α)
    (hnd : (l.map Prod.fst).Nodup) (hmem : (k, v) ∈ l) : getEntry l k = some v := by
  induction l with
  | nil => simp at hmem
  | cons e rest ih =>
    obtain ⟨k0, v0⟩ := e
    simp only [List.map_cons, List.nodup_cons] at hnd
    rcases List.mem_cons.mp hmem with heq | hmem2
    · obtain ⟨hk, hv⟩ := Prod.mk.injEq k v k0 v0 ▸ heq
      subst hk; subst hv
      simp [getEntry]
    · have hk0 : k0 ≠ k := by
        intro h
        subst h
        exact hnd.1 (List.mem_map.mpr ⟨(k0, v), hmem2, rfl⟩)
      simp only [getEntry, hk0, if_false]
      exact ih hnd.2 hmem2

/-! ## Claim C2: quota release -/

/-- C2 (counterexample): releasing 200 bytes from a ledger recording 100 used bytes is not
clamped at zero: `updateUserStorage` succeeds and stores `usedStorage = -100 < 0`, so the
claimed floor and the invariant `0 ≤ usedStorage` fail. -/
theorem c2_counterexample :
    updateUserStorage
      [("u", { uid := "u", email := "e", totalStorage := 1000, usedStorage := 100, files := [] })]
      "u" 200 false =
      .ok [("u", { uid := "u", email := "e", totalStorage := 1000, usedStorage := -100,
                   files := [] })] ∧
    (-100 : Int) < 0 :=
  ⟨rfl, by decide⟩

/-- C2 (amended): `updateUserStorage` with `isAddition = false` stores exactly
`usedStorage - fileSize`, with no floor at zero; the operation succeeds whenever the
difference does not exceed `totalStorage`, even when it is negative. -/
theorem c2_release_subtracts_unclamped
    (users : List (String × UserProfile)) (uid : String) (p : UserProfile) (sz : Int)
    (hget : getEntry users uid = some p)
    (hle : p.usedStorage - sz ≤ p.totalStorage) :
    updateUserStorage users uid sz false =
      .ok (setEntry users uid { p with usedStorage := p.usedStorage - sz }) := by
  simp [updateUserStorage, hget, not_lt.mpr hle]

theorem c2_release_subtracts_unclamped_witness :
    updateUserStorage
      [("w", { uid := "w", email := "e", totalStorage := 1000, usedStorage := 300, files := [] })]
      "w" 500 false =
      .ok [("w", { uid := "w", email := "e", totalStorage := 1000, usedStorage := -200,
                   files := [] })] := by
  have h := c2_release_subtracts_unclamped
    [("w", { uid := "w", email := "e", totalStorage := 1000, usedStorage := 300, files := [] })]
    "w" { uid := "w", email := "e", totalStorage := 1000, usedStorage := 300, files := [] }
    500 rfl (by decide)
  exact h

/-! ## Claim C7: upload quota pre-check fails closed -/

/-- C7: when the quota pre-check fails, `uploadFile` rejects with the quota error and
returns the state unchanged — for every possible blob-transfer outcome, so no blob upload
is started, no record is created, and the ledger is untouched. -/
theorem c7_quota_fail_closed
    (hash : String → String) (db : DB) (file : UploadedFile) (userId : String)
    (opts : UploadOptions) (blobResp : Option CloudinaryResponse) (now : Int) (newId : String)
    (prof : UserProfile)
    (hget : getEntry db.users userId = some prof)
    (hq : prof.totalStorage < prof.usedStorage + file.size) :
    uploadFile hash db file userId opts blobResp now newId =
      (.error .storageQuotaExceeded, db) := by
  simp [uploadFile, hget, hq]

theorem c7_quota_fail_closed_witness :
    uploadFile (fun s => s)
      { files := [], blobs := [],
        users := [("u", { uid := "u", email := "e", totalStorage := 1000, usedStorage := 600,
                          files := [] })] }
      { name := "big.bin", type := "application/octet-stream", size := 500 }
      "u" {} (some { publicId := "pid", url := "u1", secureUrl := "u2" }) 0 "new" =
      (.error .storageQuotaExceeded,
       { files := [], blobs := [],
         users := [("u", { uid := "u", email := "e", totalStorage := 1000, usedStorage := 600,
                           files := [] })] }) :=
  c7_quota_fail_closed (fun s => s) _ _ "u" {}
    (some { publicId := "pid", url := "u1", secureUrl := "u2" }) 0 "new"
    { uid := "u", email := "e", totalStorage := 1000, usedStorage := 600, files := [] }
    rfl (by decide)

/-! ## Claim C10: password check on a missing record -/

/-- C10: for a file id with no record, the lookup failure is a thrown error inside the
`try` body of `verifyFilePassword`, and the `catch` converts it to `false`: the caller
sees `false`, indistinguishable from a wrong password. -/
theorem c10_missing_file_yields_false
    (hash : String → String) (db : DB) (fileId : String) (pw : String)
    (hget : getEntry db.files fileId = none) :
    verifyFilePasswordTry hash db fileId pw = .error .fileNotFound ∧
    verifyFilePassword hash db fileId pw = false := by
  have h1 : verifyFilePasswordTry hash db fileId pw = .error .fileNotFound := by
    unfold verifyFilePasswordTry
    rw [hget]
  refine ⟨h1, ?_⟩
  unfold verifyFilePassword
  rw [h1]

theorem c10_missing_file_yields_false_witness :
    verifyFilePasswordTry (fun s => s) { files := [], users := [], blobs := [] } "nope" "pw" =
      .error .fileNotFound ∧
    verifyFilePassword (fun s => s) { files := [], users := [], blobs := [] } "nope" "pw" =
      false :=
  c10_missing_file_yields_false (fun s => s) _ "nope" "pw" rfl

/-! ## Claim C8: password verification -/

/-- The prefix-marking function used to instantiate the external SHA-256 parameter in
concrete witnesses. -/
def hashC (s : String) : String := String.append "#" s

/-- C8: `verifyFilePassword` is `true` unconditionally for an unprotected record; for a
protected record it is `true` exactly when the stored hash equals the hash of the supplied
password — hence the original password (whose digest is stored) verifies, and any password
with a different digest is refused. -/
theorem c8_verify_password
    (hash : String → String) (db : DB) (fileId : String) (fd : FileData)
    (hget : getEntry db.files fileId = some fd) :
    (fd.isPasswordProtected = false → ∀ pw, verifyFilePassword hash db fileId pw = true) ∧
    (fd.isPasswordProtected = true →
      ∀ pw, (verifyFilePassword hash db fileId pw = true ↔ fd.password = some (hash pw))) ∧
    (fd.isPasswordProtected = true → ∀ orig, fd.password = some (hash orig) →
      (verifyFilePassword hash db fileId orig = true ∧
       ∀ other, hash other ≠ hash orig →
         verifyFilePassword hash db fileId other = false)) := by
  have htry : ∀ pw, verifyFilePasswordTry hash db fileId pw =
      (if fd.isPasswordProtected = false then .ok true
       else .ok (decide (fd.password = some (hash pw)))) := by
    intro pw
    unfold verifyFilePasswordTry
    rw [hget]
  have hval : ∀ pw, verifyFilePassword hash db fileId pw =
      (if fd.isPasswordProtected = false then true
       else decide (fd.password = some (hash pw))) := by
    intro pw
    unfold verifyFilePassword
    rw [htry pw]
    by_cases hb : fd.isPasswordProtected = false
    · rw [if_pos hb, if_pos hb]
    · rw [if_neg hb, if_neg hb]
  refine ⟨?_, ?_, ?_⟩
  · intro hnp pw
    rw [hval pw, if_pos hnp]
  · intro hp pw
    rw [hval pw, if_neg (by simp [hp])]
    simp
  · intro hp orig hstore
    constructor
    · rw [hval orig, if_neg (by simp [hp])]
      simp [hstore]
    · intro other hne
      rw [hval other, if_neg (by simp [hp])]
      have hneq : fd.password ≠ some (hash other) := by
        rw [hstore]
        intro h
        exact hne (Option.some.inj h).symm
      simp [hneq]

theorem c8_verify_password_witness :
    verifyFilePassword hashC
      { files := [("f", { userId := "u", name := "a", size := 1, publicId := "p",
                          isPublic := true, uploadedAt := 0, expiresAt := none,
                          sharedWith := [], isPasswordProtected := true,
                          password := some "#secret" })],
        users := [], blobs := [] } "f" "secret" = true ∧
    verifyFilePassword hashC
      { files := [("f", { userId := "u", name := "a", size := 1, publicId := "p",
                          isPublic := true, uploadedAt := 0, expiresAt := none,
                          sharedWith := [], isPasswordProtected := true,
                          password := some "#secret" })],
        users := [], blobs := [] } "f" "wrong" = false := by
  have h := (c8_verify_password hashC
    { files := [("f", { userId := "u", name := "a", size := 1, publicId := "p",
                        isPublic := true, uploadedAt := 0, expiresAt := none,
                        sharedWith := [], isPasswordProtected := true,
                        password := some "#secret" })],
      users := [], blobs := [] } "f"
    { userId := "u", name := "a", size := 1, publicId := "p",
      isPublic := true, uploadedAt := 0, expiresAt := none,
      sharedWith := [], isPasswordProtected := true,
      password := some "#secret" } rfl).2.2 rfl "secret" rfl
  exact ⟨h.1, h.2 "wrong" (by decide)⟩

/-! ## The record written by `generateShareableLink` -/

/-- On the owner's call, `generateShareableLink` stores back the fetched record with
`isPublic := true`, the expiration update determined by `expiresIn`, and — for a truthy
password — the protection flag and the new hash. -/
theorem generateShareableLink_record
    (hash : String → String) (db : DB) (fileId userId : String) (fd : FileData)
    (expiresIn : NumOpt) (password : Option String) (now : Int)
    (hget : getEntry db.files fileId = some fd)
    (hown : fd.userId = userId) :
    getEntry (generateShareableLink hash db fileId userId expiresIn password now).2.files
        fileId =
      some (
        let fd1 := { fd with isPublic := true }
        let fd2 := match expiresIn with
          | .val n => if n ≠ 0 then { fd1 with expiresAt := some (addHours now n) } else fd1
          | .null => { fd1 with expiresAt := none }
          | .undef => fd1
        match password with
        | some p => if p ≠ "" then
            { fd2 with isPasswordProtected := true, password := some (hash p) }
          else fd2
        | none => fd2) := by
  have hcond : ¬ fd.userId ≠ userId := fun h => h hown
  simp only [generateShareableLink, hget, hcond, if_false, ite_not, if_pos hown]
  exact getEntry_setEntry_self _ _ _ _ hget

/-! ## Claim C1: password immutability after first set -/

/-- C1 (counterexample): a file already protected with stored hash `"#old"` receives a new
`generateShareableLink` call from its owner with password `"new"`; the stored hash becomes
`"#new"` (the hash of the new password), so the password argument is not ignored once
protection is set. -/
theorem c1_counterexample :
    getEntry (generateShareableLink hashC
      { files := [("f1", { userId := "u", name := "a", size := 10, publicId := "p1",
                           isPublic := true, uploadedAt := 0, expiresAt := none,
                           sharedWith := [], isPasswordProtected := true,
                           password := some "#old" })],
        users := [], blobs := [] } "f1" "u" NumOpt.undef (some "new") 0).2.files "f1" =
      some { userId := "u", name := "a", size := 10, publicId := "p1",
             isPublic := true, uploadedAt := 0, expiresAt := none,
             sharedWith := [], isPasswordProtected := true,
             password := some "#new" } ∧
    ("#new" : String) ≠ "#old" :=
  ⟨rfl, by decide⟩

/-- C1 (amended): once a file is password protected, a further owner `generateShareableLink`
call with a truthy password argument keeps the protection flag set but replaces the stored
hash with the hash of the newly supplied password — the argument is applied, not ignored. -/
theorem c1_password_overwritten
    (hash : String → String) (db : DB) (fileId userId : String) (fd : FileData)
    (expiresIn : NumOpt) (p : String) (now : Int)
    (hget : getEntry db.files fileId = some fd)
    (hown : fd.userId = userId)
    (hprot : fd.isPasswordProtected = true)
    (hp : p ≠ "") :
    (getEntry (generateShareableLink hash db fileId userId expiresIn (some p) now).2.files
        fileId).map (fun r => (r.isPasswordProtected, r.password)) =
      some (true, some (hash p)) := by
  rw [generateShareableLink_record hash db fileId userId fd expiresIn (some p) now hget hown]
  dsimp only
  rw [if_pos hp]
  rfl

theorem c1_password_overwritten_witness :
    (getEntry (generateShareableLink hashC
      { files := [("f1", { userId := "u", name := "a", size := 10, publicId := "p1",
                           isPublic := true, uploadedAt := 0, expiresAt := none,
                           sharedWith := [], isPasswordProtected := true,
                           password := some "#old" })],
        users := [], blobs := [] } "f1" "u" NumOpt.undef (some "new") 0).2.files
        "f1").map (fun r => (r.isPasswordProtected, r.password)) =
      some (true, some "#new") := by
  have h := c1_password_overwritten hashC
    { files := [("f1", { userId := "u", name := "a", size := 10, publicId := "p1",
                         isPublic := true, uploadedAt := 0, expiresAt := none,
                         sharedWith := [], isPasswordProtected := true,
                         password := some "#old" })],
      users := [], blobs := [] } "f1" "u"
    { userId := "u", name := "a", size := 10, publicId := "p1",
      isPublic := true, uploadedAt := 0, expiresAt := none,
      sharedWith := [], isPasswordProtected := true, password := some "#old" }
    NumOpt.undef "new" 0 rfl rfl rfl (by decide)
  exact h

/-! ## Claim C4: public access resolution -/

/-- C4 (counterexample): at the exact boundary instant `now = expiresAt` the code serves
the record (`now > expirationDate` is false), while the claim demands rejection for
`expiresAt ≤ now`. -/
theorem c4_counterexample :
    getPublicFile
      { files := [("f", { userId := "u", name := "a", size := 1, publicId := "p",
                          isPublic := true, uploadedAt := 0, expiresAt := some 1000,
                          sharedWith := [] })],
        users := [], blobs := [] } "f" 1000 =
      some { userId := "u", name := "a", size := 1, publicId := "p",
             isPublic := true, uploadedAt := 0, expiresAt := some 1000,
             sharedWith := [] } ∧
    ((1000 : Int) ≤ 1000) :=
  ⟨rfl, by decide⟩

/-- C4 (amended): `getPublicFile` rejects a missing record, rejects a non-public record,
and rejects a record whose expiration is strictly before `now`; it returns the record when
it is public and the expiration is absent or at/after `now` — the exact boundary instant
is served, not rejected. -/
theorem c4_public_access (db : DB) (fileId : String) (now : Int) :
    (getEntry db.files fileId = none → getPublicFile db fileId now = none) ∧
    (∀ fd, getEntry db.files fileId = some fd → fd.isPublic = false →
      getPublicFile db fileId now = none) ∧
    (∀ fd t, getEntry db.files fileId = some fd → fd.expiresAt = some t → t < now →
      getPublicFile db fileId now = none) ∧
    (∀ fd, getEntry db.files fileId = some fd → fd.isPublic = true →
      (∀ t, fd.expiresAt = some t → now ≤ t) →
      getPublicFile db fileId now = some fd) := by
  refine ⟨?_, ?_, ?_, ?_⟩
  · intro h
    simp [getPublicFile, h]
  · intro fd h hpub
    simp [getPublicFile, h, hpub]
  · intro fd t h hexp ht
    simp [getPublicFile, h, hexp, ht, ite_self]
  · intro fd h hpub hexp
    cases hfe : fd.expiresAt with
    | none => simp [getPublicFile, h, hpub, hfe]
    | some t => simp [getPublicFile, h, hpub, hfe, not_lt.mpr (hexp t hfe)]

theorem c4_public_access_witness :
    getPublicFile
      { files := [("g", { userId := "u", name := "b", size := 2, publicId := "q",
                          isPublic := true, uploadedAt := 0, expiresAt := some 2000,
                          sharedWith := [] })],
        users := [], blobs := [] } "g" 1500 =
      some { userId := "u", name := "b", size := 2, publicId := "q",
             isPublic := true, uploadedAt := 0, expiresAt := some 2000,
             sharedWith := [] } := by
  refine (c4_public_access _ "g" 1500).2.2.2 _ rfl rfl ?_
  intro t ht
  injection ht with h2
  subst h2
  decide

/-! ## Claim C6: expiration option handling in `generateShareableLink` -/

/-- C6: through `generateShareableLink`, an explicit `null` expiration removes the stored
`expiresAt` entirely (`none`, an absent field, not a zero date); a nonzero positive
`expiresIn` sets `expiresAt = now + N hours`, overwriting any prior value; an omitted
`expiresIn` leaves the stored expiration untouched. -/
theorem c6_expiration_handling
    (hash : String → String) (db : DB) (fileId userId : String) (fd : FileData)
    (pw : Option String) (now : Int)
    (hget : getEntry db.files fileId = some fd)
    (hown : fd.userId = userId) :
    ((getEntry (generateShareableLink hash db fileId userId NumOpt.null pw now).2.files
        fileId).map FileData.expiresAt = some none) ∧
    (∀ n : Int, 0 < n →
      (getEntry (generateShareableLink hash db fileId userId (NumOpt.val n) pw now).2.files
          fileId).map FileData.expiresAt = some (some (addHours now n))) ∧
    ((getEntry (generateShareableLink hash db fileId userId NumOpt.undef pw now).2.files
        fileId).map FileData.expiresAt = some fd.expiresAt) := by
  refine ⟨?_, ?_, ?_⟩
  · rw [generateShareableLink_record hash db fileId userId fd NumOpt.null pw now hget hown]
    cases pw with
    | none => rfl
    | some p =>
      dsimp only
      split <;> rfl
  · intro n hn
    have hne : n ≠ 0 := ne_of_gt hn
    rw [generateShareableLink_record hash db fileId userId fd (NumOpt.val n) pw now hget hown]
    cases pw with
    | none => simp [hne]
    | some p =>
      dsimp only
      split <;> simp [hne]
  · rw [generateShareableLink_record hash db fileId userId fd NumOpt.undef pw now hget hown]
    cases pw with
    | none => rfl
    | some p =>
      dsimp only
      split <;> rfl

theorem c6_expiration_handling_witness :
    (getEntry (generateShareableLink hashC
      { files := [("f2", { userId := "v", name := "c", size := 3, publicId := "r",
                           isPublic := true, uploadedAt := 0, expiresAt := some 999,
                           sharedWith := [] })],
        users := [], blobs := [] } "f2" "v" NumOpt.null none 0).2.files
      "f2").map FileData.expiresAt = some none :=
  (c6_expiration_handling hashC
    { files := [("f2", { userId := "v", name := "c", size := 3, publicId := "r",
                         isPublic := true, uploadedAt := 0, expiresAt := some 999,
                         sharedWith := [] })],
      users := [], blobs := [] } "f2" "v"
    { userId := "v", name := "c", size := 3, publicId := "r",
      isPublic := true, uploadedAt := 0, expiresAt := some 999, sharedWith := [] }
    none 0 rfl rfl).1

/-! ## Claim C5: owner listing -/

/-- Membership in `getUserFiles`: exactly the owner's records whose expiration is absent
or strictly in the future, whatever their visibility. -/
theorem mem_getUserFiles (db : DB) (userId : String) (now : Int) (e : String × FileData) :
    e ∈ getUserFiles db userId now ↔
      e ∈ db.files ∧ e.2.userId = userId ∧ ∀ t, e.2.expiresAt = some t → now < t := by
  unfold getUserFiles
  rw [List.mem_insertionSort, List.mem_filter, List.mem_filter, and_assoc]
  apply and_congr_right
  intro _
  apply and_congr
  · simp
  · cases hfe : e.2.expiresAt with
    | none => simp
    | some t => simp

/-- The private expired record of the C5 counterexample. -/
def c5fd : FileData :=
  { userId := "u", name := "a", size := 1, publicId := "p", isPublic := false,
    uploadedAt := 0, expiresAt := some 5, sharedWith := [] }

/-- The store of the C5 counterexample. -/
def c5db : DB := { files := [("f", c5fd)], users := [], blobs := [] }

/-- C5 (counterexample): a private record (`isPublic = false`) with a past expiration is
dropped from its owner's listing, although the claim says only expired *public* records
are excluded. -/
theorem c5_counterexample :
    c5fd.isPublic = false ∧ c5fd.expiresAt = some 5 ∧ (5 : Int) < 10 ∧
    getEntry c5db.files "f" = some c5fd ∧
    getUserFiles c5db "u" 10 = [] :=
  ⟨rfl, rfl, by decide, rfl, rfl⟩

/-- C5 (amended): `getUserFiles` returns exactly the owner's records whose expiration is
absent or strictly in the future — every expired record is excluded, private ones
included — sorted by upload time descending (newest first). -/
theorem c5_list_by_owner (db : DB) (userId : String) (now : Int) :
    (∀ e : String × FileData,
      e ∈ getUserFiles db userId now ↔
        e ∈ db.files ∧ e.2.userId = userId ∧ ∀ t, e.2.expiresAt = some t → now < t) ∧
    List.Sorted uploadOrder (getUserFiles db userId now) :=
  ⟨fun e => mem_getUserFiles db userId now e,
   List.sorted_insertionSort uploadOrder _⟩

/-- A live record used to instantiate the C5 listing characterization. -/
def c5liveFd : FileData :=
  { userId := "u", name := "b", size := 2, publicId := "q", isPublic := false,
    uploadedAt := 1, expiresAt := some 20, sharedWith := [] }

theorem c5_list_by_owner_witness :
    ("g", c5liveFd) ∈ getUserFiles { files := [("g", c5liveFd)], users := [], blobs := [] }
      "u" 10 := by
  refine ((c5_list_by_owner { files := [("g", c5liveFd)], users := [], blobs := [] }
    "u" 10).1 ("g", c5liveFd)).mpr ⟨by simp, rfl, ?_⟩
  intro t ht
  have h2 : (20 : Int) = t := by
    have := ht
    simp [c5liveFd] at this
    exact this
  rw [← h2]
  decide

/-! ## Claim C3: the reaper's return value -/

/-- The expired public record of the C3 counterexample. -/
def c3fd : FileData :=
  { userId := "u", name := "a", size := 10, publicId := "p", isPublic := true,
    uploadedAt := 0, expiresAt := some 50, sharedWith := [] }

/-- The store of the C3 counterexample: the record's owner profile is missing, so the
delete fails. -/
def c3db : DB := { files := [("f1", c3fd)], users := [], blobs := ["p"] }

/-- C3 (counterexample): one expired public record whose owner profile is missing — the
delete fails and is swallowed, yet the sweep returns `1` (the matched count, although
zero records were removed), the record is still present afterwards, and a second
consecutive sweep returns `1` again instead of `0`. -/
theorem c3_counterexample :
    (cleanupExpiredFiles c3db 100).1 = 1 ∧
    getEntry (cleanupExpiredFiles c3db 100).2.files "f1" = some c3fd ∧
    (cleanupExpiredFiles (cleanupExpiredFiles c3db 100).2 100).1 = 1 :=
  ⟨rfl, rfl, rfl⟩

/-- Three files for the sweep scenario: one expired public, one public without expiry,
one expired private; the shared owner exists. -/
def c3sfd1 : FileData :=
  { userId := "u", name := "a1", size := 10, publicId := "p1",
    isPublic := true, uploadedAt := 0, expiresAt := some 50, sharedWith := [] }

def c3sfd2 : FileData :=
  { userId := "u", name := "a2", size := 10, publicId := "p2",
    isPublic := true, uploadedAt := 1, expiresAt := none, sharedWith := [] }

def c3sfd3 : FileData :=
  { userId := "u", name := "a3", size := 10, publicId := "p3",
    isPublic := false, uploadedAt := 2, expiresAt := some 50, sharedWith := [] }

def c3su : UserProfile :=
  { uid := "u", email := "e", totalStorage := 1000,
    usedStorage := 30, files := ["f1", "f2", "f3"] }

def c3sdb : DB :=
  { files := [("f1", c3sfd1), ("f2", c3sfd2), ("f3", c3sfd3)],
    users := [("u", c3su)], blobs := ["p1", "p2", "p3"] }

/-- Two expired public files whose owners differ: the first owner's profile is missing,
the second owner exists. -/
def c3ifd1 : FileData :=
  { userId := "x", name := "b1", size := 5, publicId := "q1",
    isPublic := true, uploadedAt := 0, expiresAt := some 50, sharedWith := [] }

def c3ifd2 : FileData :=
  { userId := "u", name := "b2", size := 5, publicId := "q2",
    isPublic := true, uploadedAt := 0, expiresAt := some 50, sharedWith := [] }

def c3idb : DB :=
  { files := [("g1", c3ifd1), ("g2", c3ifd2)],
    users := [("u", { uid := "u", email := "e", totalStorage := 100, usedStorage := 5,
                      files := ["g2"] })],
    blobs := ["q1", "q2"] }

/-- C3 (amended): the sweep returns the number of records matching the expiry query at
sweep start, whether or not each delete succeeds.  In the three-file scenario with a
healthy owner, exactly the expired public record is deleted, the sweep returns `1`, the
other two records remain, and a second consecutive sweep returns `0`.  A failing delete
does not abort the sweep: with two matched records whose first delete fails, the second
is still removed. -/
theorem c3_sweep_returns_matched_count (db : DB) (now : Int) :
    (cleanupExpiredFiles db now).1 =
      (db.files.filter fun e => isExpiredPublic now e.2).length ∧
    ((cleanupExpiredFiles c3sdb 100).1 = 1 ∧
     getEntry (cleanupExpiredFiles c3sdb 100).2.files "f1" = none ∧
     getEntry (cleanupExpiredFiles c3sdb 100).2.files "f2" = some c3sfd2 ∧
     getEntry (cleanupExpiredFiles c3sdb 100).2.files "f3" = some c3sfd3 ∧
     (cleanupExpiredFiles (cleanupExpiredFiles c3sdb 100).2 100).1 = 0) ∧
    ((cleanupExpiredFiles c3idb 100).1 = 2 ∧
     getEntry (cleanupExpiredFiles c3idb 100).2.files "g1" = some c3ifd1 ∧
     getEntry (cleanupExpiredFiles c3idb 100).2.files "g2" = none) :=
  ⟨rfl, ⟨rfl, rfl, rfl, rfl, rfl⟩, ⟨rfl, rfl, rfl⟩⟩

/-! ## Claim C9: private expired records are orphaned -/

/-- `deleteFile` never touches a file entry under a different key, whatever its
outcome. -/
theorem deleteFile_files_preserved (db : DB) (fileId userId k : String)
    (hk : k ≠ fileId) :
    getEntry (deleteFile db fileId userId).2.files k = getEntry db.files k := by
  unfold deleteFile
  split
  · rfl
  · split
    · rfl
    · dsimp only
      split
      · rfl
      · split
        · rfl
        · exact getEntry_eraseEntry_ne db.files fileId k hk

/-- A sweep fold over records whose keys all differ from `k` leaves the entry under `k`
unchanged. -/
theorem sweep_foldl_preserved (l : List (String × FileData)) (db : DB) (k : String)
    (hk : ∀ e ∈ l, e.1 ≠ k) :
    getEntry (l.foldl sweepStep db).files k = getEntry db.files k := by
  induction l generalizing db with
  | nil => rfl
  | cons e rest ih =>
    rw [List.foldl_cons]
    rw [ih _ (fun x hx => hk x (List.mem_cons_of_mem e hx))]
    unfold sweepStep
    by_cases hc : e.2.userId ≠ ""
    · rw [if_pos hc]
      exact deleteFile_files_preserved db e.1 e.2.userId k
        (Ne.symm (hk e (List.mem_cons_self e rest)))
    · rw [if_neg hc]

/-- C9: a private record with a past expiration never matches the reaper's query, so a
sweep leaves it stored unchanged, while `getUserFiles` drops it from the owner's
listing — it persists, invisible to its owner. -/
theorem c9_private_expired_orphan
    (db : DB) (id : String) (fd : FileData) (t now : Int)
    (hnd : (db.files.map Prod.fst).Nodup)
    (hmem : (id, fd) ∈ db.files)
    (hpriv : fd.isPublic = false)
    (hexp : fd.expiresAt = some t) (ht : t < now) :
    isExpiredPublic now fd = false ∧
    getEntry (cleanupExpiredFiles db now).2.files id = some fd ∧
    (id, fd) ∉ getUserFiles db fd.userId now := by
  have hid : getEntry db.files id = some fd := getEntry_eq_some_of_mem _ _ _ hnd hmem
  refine ⟨?_, ?_, ?_⟩
  · simp [isExpiredPublic, hpriv]
  · have hne : ∀ e ∈ db.files.filter (fun e => isExpiredPublic now e.2), e.1 ≠ id := by
      intro e he hke
      have hmem2 : e ∈ db.files := List.mem_of_mem_filter he
      have hpe : isExpiredPublic now e.2 = true := (List.mem_filter.mp he).2
      have hge : getEntry db.files e.1 = some e.2 :=
        getEntry_eq_some_of_mem db.files e.1 e.2 hnd (by rw [Prod.mk.eta]; exact hmem2)
      rw [hke, hid] at hge
      have heq : e.2 = fd := (Option.some.inj hge).symm
      rw [heq] at hpe
      simp [isExpiredPublic, hpriv] at hpe
    have hpres : getEntry (cleanupExpiredFiles db now).2.files id = getEntry db.files id :=
      sweep_foldl_preserved _ db id hne
    rw [hpres, hid]
  · intro hin
    have h2 := ((mem_getUserFiles db fd.userId now (id, fd)).mp hin).2.2
    exact lt_asymm ht (h2 t hexp)

theorem c9_private_expired_orphan_witness :
    isExpiredPublic 100 c5fd = false ∧
    getEntry (cleanupExpiredFiles
      { files := [("h", c5fd)],
        users := [("u", { uid := "u", email := "e", totalStorage := 1000,
                          usedStorage := 1, files := ["h"] })],
        blobs := ["p"] } 100).2.files "h" = some c5fd ∧
    ("h", c5fd) ∉ getUserFiles
      { files := [("h", c5fd)],
        users := [("u", { uid := "u", email := "e", totalStorage := 1000,
                          usedStorage := 1, files := ["h"] })],
        blobs := ["p"] } c5fd.userId 100 :=
  c9_private_expired_orphan
    { files := [("h", c5fd)],
      users := [("u", { uid := "u", email := "e", totalStorage := 1000,
                        usedStorage := 1, files := ["h"] })],
      blobs := ["p"] }
    "h" c5fd 5 100 (by decide) (by simp) rfl rfl (by decide)

end FileShare
